import Mathlib

/-!
Verification of the Bloom target-control pipeline (AVR8/EDBG debug interface,
target facade and GDB RSP front-end) against its natural-language specification.

The definitions below are a shallow embedding of the C++ sources:

 * `src/DebugToolDrivers/Protocols/CMSIS-DAP/VendorSpecific/EDBG/AVR/EdbgAvr8Interface.cpp`
 * `src/Targets/Microchip/AVR/AVR8/Avr8.cpp`
 * `src/DebugServer/Gdb/AvrGdb/CommandPackets/WriteMemory.cpp`

Machine integers are modelled as `Nat` (all quantities involved are unsigned and
stay well below 2^32 on the paths considered; where the source performs a
narrowing cast, the model notes it). Code that communicates with the debug
probe or the target is modelled by explicit state passing: the wire transport
and the ISP side-channel appear as oracles whose replies parametrise the
functions, and the observable effects (frames sent, fuses programmed) are
returned as data.
-/

namespace Bloom

/-- AVR8 target family, per `Targets::Microchip::Avr::Avr8Bit::Family`. -/
inductive Family
  | MEGA
  | TINY
  | XMEGA
  | DA
  | DB
  | DD
  | EA
deriving DecidableEq, Repr

/-- Physical debug interface, per `Targets::Microchip::Avr::Avr8Bit::PhysicalInterface`. -/
inductive PhysicalInterface
  | DEBUG_WIRE
  | JTAG
  | PDI
  | UPDI
  | ISP
deriving DecidableEq, Repr

/-- EDBG AVR8 config variant, per `Avr8ConfigVariant`. -/
inductive Avr8ConfigVariant
  | NONE
  | DEBUG_WIRE
  | MEGAJTAG
  | XMEGA
  | UPDI
deriving DecidableEq, Repr

/--
The fixed `(family, physical interface) → config variant` table returned by
`EdbgAvr8Interface::getConfigVariantsByFamilyAndPhysicalInterface()`
(EdbgAvr8Interface.cpp:913-964). A pair absent from the nested maps is `none`.
-/
def getConfigVariantsByFamilyAndPhysicalInterface
    (family : Family) (physicalInterface : PhysicalInterface) : Option Avr8ConfigVariant :=
  match family, physicalInterface with
  | .MEGA, .JTAG => some .MEGAJTAG
  | .MEGA, .DEBUG_WIRE => some .DEBUG_WIRE
  | .MEGA, .UPDI => some .UPDI
  | .TINY, .JTAG => some .MEGAJTAG
  | .TINY, .DEBUG_WIRE => some .DEBUG_WIRE
  | .TINY, .UPDI => some .UPDI
  | .XMEGA, .JTAG => some .XMEGA
  | .XMEGA, .PDI => some .XMEGA
  | .DA, .UPDI => some .UPDI
  | .DB, .UPDI => some .UPDI
  | .DD, .UPDI => some .UPDI
  | .EA, .UPDI => some .UPDI
  | _, _ => none

/--
The fallback map used by `EdbgAvr8Interface::resolveConfigVariant()` when no
family is known (`physicalInterfacesToConfigVariants`,
EdbgAvr8Interface.cpp:996-1000). JTAG is deliberately absent.
-/
def physicalInterfacesToConfigVariants
    (physicalInterface : PhysicalInterface) : Option Avr8ConfigVariant :=
  match physicalInterface with
  | .DEBUG_WIRE => some .DEBUG_WIRE
  | .PDI => some .XMEGA
  | .UPDI => some .UPDI
  | _ => none

/--
`EdbgAvr8Interface::resolveConfigVariant()` (EdbgAvr8Interface.cpp:966-1009):
with a known family, look the pair up in the fixed table; otherwise fall back
to the physical-interface-only map.
-/
def resolveConfigVariant
    (family : Option Family) (physicalInterface : PhysicalInterface) : Option Avr8ConfigVariant :=
  match family with
  | some f => getConfigVariantsByFamilyAndPhysicalInterface f physicalInterface
  | none => physicalInterfacesToConfigVariants physicalInterface

/--
The variant table exactly as the specification words it (spec section 4.4,
"Variant resolution"), written independently of the source for the refinement
comparison in claim C3.
-/
def specVariantTable
    (family : Family) (physicalInterface : PhysicalInterface) : Option Avr8ConfigVariant :=
  match family, physicalInterface with
  | .MEGA, .JTAG | .TINY, .JTAG => some .MEGAJTAG
  | .MEGA, .DEBUG_WIRE | .TINY, .DEBUG_WIRE => some .DEBUG_WIRE
  | .MEGA, .UPDI | .TINY, .UPDI => some .UPDI
  | .XMEGA, .JTAG | .XMEGA, .PDI => some .XMEGA
  | .DA, .UPDI | .DB, .UPDI | .DD, .UPDI | .EA, .UPDI => some .UPDI
  | _, _ => none

/-- EDBG AVR8 wire-level memory type, per `Avr8MemoryType`. -/
inductive Avr8MemoryType
  | SRAM
  | EEPROM
  | EEPROM_ATOMIC
  | EEPROM_PAGE
  | FLASH_PAGE
  | SPM
  | APPL_FLASH
  | BOOT_FLASH
  | FUSES
  | REGISTER_FILE
deriving DecidableEq, Repr

/-- Generic target memory type, per `Targets::TargetMemoryType`. -/
inductive TargetMemoryType
  | FLASH
  | RAM
  | EEPROM
  | FUSES
  | OTHER
deriving DecidableEq, Repr

/--
The target parameters consulted by the alignment and chunking logic
(`TargetParameters::flashPageSize` / `eepromPageSize`), plus the per-instance
access-size override and the HID report size used by
`EdbgAvr8Interface::maximumMemoryAccessSize()`.
-/
structure EdbgMemoryConfig where
  flashPageSize : Nat
  eepromPageSize : Nat
  configVariant : Avr8ConfigVariant
  maximumMemoryAccessSizePerRequest : Option Nat
  usbHidInputReportSize : Nat
deriving Repr

/-- `EdbgAvr8Interface::alignmentRequired()` (EdbgAvr8Interface.cpp:1585-1594). -/
def alignmentRequired (memoryType : Avr8MemoryType) : Bool :=
  memoryType = .FLASH_PAGE
    || memoryType = .SPM
    || memoryType = .APPL_FLASH
    || memoryType = .BOOT_FLASH
    || memoryType = .EEPROM_ATOMIC
    || memoryType = .EEPROM_PAGE

/--
The `alignTo` value computed by the `switch` statements in
`EdbgAvr8Interface::alignMemoryAddress()` / `alignMemoryBytes()`
(EdbgAvr8Interface.cpp:1600-1626 and 1641-1660): the flash page size for the
four flash page types, the EEPROM page size for the two EEPROM page types, and
1 otherwise.
-/
def alignmentSize (config : EdbgMemoryConfig) (memoryType : Avr8MemoryType) : Nat :=
  match memoryType with
  | .FLASH_PAGE | .SPM | .APPL_FLASH | .BOOT_FLASH => config.flashPageSize
  | .EEPROM_ATOMIC | .EEPROM_PAGE => config.eepromPageSize
  | _ => 1

/--
`EdbgAvr8Interface::alignMemoryAddress()` (EdbgAvr8Interface.cpp:1596-1635).
The source computes `floor(float(address) / float(alignTo)) * alignTo`; the
float arithmetic is exact for the 24-bit AVR address range handled here
(single-precision floats represent every integer below 2^24, and the page
sizes are powers of two), so it is modelled as exact natural floor division.
-/
def alignMemoryAddress (config : EdbgMemoryConfig) (memoryType : Avr8MemoryType)
    (address : Nat) : Nat :=
  let alignTo := alignmentSize config memoryType
  if address % alignTo ≠ 0 then (address / alignTo) * alignTo else address

/--
`EdbgAvr8Interface::alignMemoryBytes()` (EdbgAvr8Interface.cpp:1637-1669).
The source computes `ceil(float(bytes) / float(alignTo)) * alignTo`; modelled
as exact ceiling division, as for `alignMemoryAddress`.
-/
def alignMemoryBytes (config : EdbgMemoryConfig) (memoryType : Avr8MemoryType)
    (bytes : Nat) : Nat :=
  let alignTo := alignmentSize config memoryType
  if bytes % alignTo ≠ 0 then ((bytes + alignTo - 1) / alignTo) * alignTo else bytes

/--
`EdbgAvr8Interface::maximumMemoryAccessSize()` (EdbgAvr8Interface.cpp:1671-1707).
Every path of the source returns an engaged `std::optional`, so the model
returns `Nat` directly: one flash page for the single-page flash types (SPM
only under the MEGAJTAG variant), one EEPROM page for the single-page EEPROM
types, the per-instance override when configured, and otherwise
`(usbHidInputReportSize - 30) * 2` so that each command fits in at most two
HID reports.
-/
def maximumMemoryAccessSize (config : EdbgMemoryConfig) (memoryType : Avr8MemoryType) : Nat :=
  if memoryType = .FLASH_PAGE
      || memoryType = .APPL_FLASH
      || memoryType = .BOOT_FLASH
      || (memoryType = .SPM && config.configVariant = .MEGAJTAG) then
    config.flashPageSize
  else if memoryType = .EEPROM_ATOMIC || memoryType = .EEPROM_PAGE then
    config.eepromPageSize
  else
    match config.maximumMemoryAccessSizePerRequest with
    | some limit => limit
    | none => (config.usbHidInputReportSize - 30) * 2

/--
The per-transaction byte counts produced by the chunking loop in
`EdbgAvr8Interface::readMemory()` (EdbgAvr8Interface.cpp:1789-1810) and
`writeMemory()` (EdbgAvr8Interface.cpp:1870-1893): while data remains, issue a
transaction of `min(remaining, max)` bytes. The source only reaches the loop
with `max > 0` (page sizes and the HID report size are positive); the
`max = 0` guard here only makes the recursion total.
-/
def chunkSizes (max bytes : Nat) : List Nat :=
  if bytes = 0 then []
  else if max = 0 then [bytes]
  else if bytes ≤ max then [bytes]
  else max :: chunkSizes max (bytes - max)
termination_by bytes
decreasing_by simp_all; omega

/--
The list of transport-transaction lengths issued by the internal
`EdbgAvr8Interface::readMemory()` / `writeMemory()` for an aligned request
with no excluded addresses: one transaction when the request does not exceed
the per-type maximum, and the chunking loop otherwise.
-/
def memoryAccessTransactionSizes (config : EdbgMemoryConfig) (memoryType : Avr8MemoryType)
    (bytes : Nat) : List Nat :=
  let max := maximumMemoryAccessSize config memoryType
  if bytes > max then chunkSizes max bytes else [bytes]

/-- Target execution state, per `Targets::TargetState`. -/
inductive TargetState
  | UNKNOWN
  | STOPPED
  | RUNNING
  | STOPPING
deriving DecidableEq, Repr

/-- An asynchronous AVR event polled from the probe: either the decoded
`AVR8_BREAK_EVENT` or any other event id. -/
inductive AvrEvent
  | breakEvent
  | otherEvent
deriving DecidableEq, Repr

/--
The mutable state of `EdbgAvr8Interface` relevant to execution control:
`this->targetState` plus the probe's pending event queue (the events that
`requestAvrEvent()` would deliver, in order).
-/
structure IfaceState where
  targetState : TargetState
  events : List AvrEvent
deriving DecidableEq, Repr

/--
`EdbgAvr8Interface::getAvrEvent()` (EdbgAvr8Interface.cpp:1559-1579): poll one
pending event, or nothing when the queue is empty.
-/
def getAvrEvent (state : IfaceState) : Option AvrEvent × IfaceState :=
  match state.events with
  | [] => (none, state)
  | event :: rest => (some event, { state with events := rest })

/-- `EdbgAvr8Interface::clearEvents()` (EdbgAvr8Interface.cpp:1581-1583):
drain the pending event queue. -/
def clearEvents (state : IfaceState) : IfaceState :=
  { state with events := [] }

/--
`EdbgAvr8Interface::refreshTargetState()` (EdbgAvr8Interface.cpp:1908-1923):
poll one event; on a decoded Break event, set the target state to STOPPED,
otherwise set it to RUNNING.
-/
def refreshTargetState (state : IfaceState) : IfaceState :=
  let (event, state') := getAvrEvent state
  if event = some .breakEvent then { state' with targetState := .STOPPED }
  else { state' with targetState := .RUNNING }

/--
`EdbgAvr8Interface::getTargetState()` (EdbgAvr8Interface.cpp:860-873): refresh
from the event stream only when the current state is not STOPPED, then return
the (possibly updated) state.
-/
def getTargetStateFn (state : IfaceState) : TargetState × IfaceState :=
  if state.targetState ≠ .STOPPED then
    let state' := refreshTargetState state
    (state'.targetState, state')
  else
    (state.targetState, state)

/-- Helper for `waitForStoppedEventFn`: consume events until a Break event is
found, returning the remaining queue, or `none` when no Break event arrives. -/
def consumeUntilBreak : List AvrEvent → Option (List AvrEvent)
  | [] => none
  | .breakEvent :: rest => some rest
  | .otherEvent :: rest => consumeUntilBreak rest

/--
`EdbgAvr8Interface::waitForStoppedEvent()` (EdbgAvr8Interface.cpp:1935-1943).
Modelled from the spec: the underlying `waitForAvrEvent<BreakEvent>()` template
(declared in the interface header, which is not among the sources) polls the
event stream until a Break event arrives or the timeout lapses. On a Break
event the target state becomes STOPPED (second component `true`); on timeout
the queue has been drained fruitlessly, the state is unchanged and an
exception is thrown (second component `false`).
-/
def waitForStoppedEventFn (state : IfaceState) : IfaceState × Bool :=
  match consumeUntilBreak state.events with
  | some rest => (({ targetState := .STOPPED, events := rest } : IfaceState), true)
  | none => ({ state with events := [] }, false)

/--
`EdbgAvr8Interface::run()` (EdbgAvr8Interface.cpp:198-209): clear the pending
events, send the Run frame (`commandOk` is the transport's verdict); on
success the target state becomes RUNNING, on failure an exception is thrown
with the state variable unchanged.
-/
def runFn (state : IfaceState) (commandOk : Bool) : IfaceState × Bool :=
  let state' := clearEvents state
  if commandOk then ({ state' with targetState := .RUNNING }, true) else (state', false)

/-- `EdbgAvr8Interface::runTo()` (EdbgAvr8Interface.cpp:211-222): identical
control flow to `run`, with a RunTo frame. -/
def runToFn (state : IfaceState) (commandOk : Bool) : IfaceState × Bool :=
  let state' := clearEvents state
  if commandOk then ({ state' with targetState := .RUNNING }, true) else (state', false)

/--
`EdbgAvr8Interface::step()` (EdbgAvr8Interface.cpp:224-234): send the Step
frame; on success the target state becomes RUNNING. Note: unlike `run` and
`runTo`, the source does not call `clearEvents()` here.
-/
def stepFn (state : IfaceState) (commandOk : Bool) : IfaceState × Bool :=
  if commandOk then ({ state with targetState := .RUNNING }, true) else (state, false)

/--
`EdbgAvr8Interface::stop()` (EdbgAvr8Interface.cpp:184-196): send the Stop
frame; on failure throw. Then, if `getTargetState()` reports RUNNING, wait for
the Break event.
-/
def stopFn (state : IfaceState) (commandOk : Bool) : IfaceState × Bool :=
  if !commandOk then (state, false)
  else
    let (reported, state') := getTargetStateFn state
    if reported = .RUNNING then waitForStoppedEventFn state' else (state', true)

/--
`EdbgAvr8Interface::reset()` (EdbgAvr8Interface.cpp:236-261): send the Reset
frame; on failure throw; then wait for the Break event (failure to receive it
is fatal). The post-reset 250 ms sleep has no effect on this state.
-/
def resetFn (state : IfaceState) (commandOk : Bool) : IfaceState × Bool :=
  if commandOk then waitForStoppedEventFn state else (state, false)

/-- The execution-control operations of the debug interface considered by the
state-machine claims. -/
inductive DebugOp
  | runOp
  | runToOp
  | stepOp
  | resetOp
  | stopOp
  | getTargetStateOp
deriving DecidableEq, Repr

/-- One operation of the execution-control state machine: the resulting
interface state and whether the operation completed without throwing. -/
def applyDebugOp (state : IfaceState) (op : DebugOp) (commandOk : Bool) : IfaceState × Bool :=
  match op with
  | .runOp => runFn state commandOk
  | .runToOp => runToFn state commandOk
  | .stepOp => stepFn state commandOk
  | .resetOp => resetFn state commandOk
  | .stopOp => stopFn state commandOk
  | .getTargetStateOp => ((getTargetStateFn state).2, true)

/--
`EdbgAvr8Interface::getProgramCounter()` / `setProgramCounter()` prologue
(EdbgAvr8Interface.cpp:320-352): when the target state is not STOPPED, issue a
`stop()` first. Returns the interface state in force at the moment the
GetPC/SetPC command frame is sent, or `none` when `stop()` threw and no frame
was sent.
-/
def programCounterPreFrameState (state : IfaceState) (stopCommandOk : Bool) :
    Option IfaceState :=
  if state.targetState ≠ .STOPPED then
    if (stopFn state stopCommandOk).2 then some (stopFn state stopCommandOk).1 else none
  else
    some state

/--
The word (16-bit) program-counter address carried by the SetPC command frame
sent by `EdbgAvr8Interface::setProgramCounter()` (EdbgAvr8Interface.cpp:345-347):
the byte address divided by 2.
-/
def setProgramCounterSentWord (byteAddress : Nat) : Nat :=
  byteAddress / 2

/--
Modelled from the spec: `AvrResponseFrame::extractProgramCounter()` lives in
the EDBG response-frame headers, which are not among the sources. Per the spec
("the EDBG protocol uses word addresses ... `get_pc` returns the multiplied
value"), it converts the probe's word address back to a byte address by
multiplying by 2.
-/
def extractProgramCounter (probeWordAddress : Nat) : Nat :=
  probeWordAddress * 2

/--
`EdbgAvr8Interface::getProgramCounter()` (EdbgAvr8Interface.cpp:320-334)
composed with a probe whose word-address register holds what the preceding
`setProgramCounter()` sent: the byte address returned to the caller.
-/
def getProgramCounterAfterSet (byteAddress : Nat) : Nat :=
  extractProgramCounter (setProgramCounterSentWord byteAddress)

/-- AVR fuse byte selector, per `Targets::Microchip::Avr::FuseType`. -/
inductive FuseType
  | low
  | high
  | extended
deriving DecidableEq, Repr

/-- A fuse-bit-field descriptor extracted from the TDF
(`FuseBitsDescriptor`): which fuse byte holds the field and its bit mask. -/
structure FuseBitsDescriptor where
  fuseType : FuseType
  bitMask : Nat
deriving DecidableEq, Repr

/--
The ISP side-channel as seen by `Avr8::updateDwenFuseBit()`: the replies the
`avrIspInterface` oracle gives to each read issued by the procedure. `fuseValue`
is the value returned for the initial `readFuse` calls, and
`fuseValueAfterProgram` the value returned by the verifying `readFuse` issued
after `programFuse`.
-/
structure IspOracle where
  deviceId : Nat
  fuseValue : FuseType → Nat
  fuseValueAfterProgram : FuseType → Nat
  lockBitByte : Nat

/-- Observable outcome of `Avr8::updateDwenFuseBit()`: the `programFuse`
writes issued on the ISP transport, in order, and whether the procedure
returned normally (`true`) or threw an exception (`false`). -/
structure DwenUpdateResult where
  programmedFuses : List (FuseType × Nat)
  ok : Bool
deriving DecidableEq, Repr

/--
`Avr8::updateDwenFuseBit()` (Avr8.cpp:805-984), from the signature check
onwards (the earlier guards only reject missing configuration and issue no ISP
traffic). In order: compare the ISP-read signature with the cached descriptor
signature; read the DWEN fuse byte (reusing it for SPIEN when both fields live
in the same fuse byte); abort if the SPIEN bit reads unprogrammed (nonzero
under the mask); return silently if the DWEN bit already has the desired
value; abort unless the lock-bit byte is 0xFF; program the rewritten fuse
byte; read it back and fail on mismatch. Fuse bytes are 8-bit, so the source's
`dwenFuseByte & ~bitMask` is modelled as masking with the byte-wide
complement `255 ^^^ bitMask` (the descriptors' masks are byte masks).
-/
def updateDwenFuseBit (oracle : IspOracle) (expectedSignature : Nat)
    (dwenDescriptor spienDescriptor : FuseBitsDescriptor) (enable : Bool) :
    DwenUpdateResult :=
  if oracle.deviceId ≠ expectedSignature then
    { programmedFuses := [], ok := false }
  else
    let dwenFuseByte := oracle.fuseValue dwenDescriptor.fuseType
    let spienFuseByte :=
      if spienDescriptor.fuseType = dwenDescriptor.fuseType then dwenFuseByte
      else oracle.fuseValue spienDescriptor.fuseType
    if spienFuseByte &&& spienDescriptor.bitMask ≠ 0 then
      { programmedFuses := [], ok := false }
    else if (!decide (dwenFuseByte &&& dwenDescriptor.bitMask ≠ 0)) = enable then
      { programmedFuses := [], ok := true }
    else if oracle.lockBitByte ≠ 0xFF then
      { programmedFuses := [], ok := false }
    else
      let newFuseValue :=
        if enable then dwenFuseByte &&& (255 ^^^ dwenDescriptor.bitMask)
        else dwenFuseByte ||| dwenDescriptor.bitMask
      if oracle.fuseValueAfterProgram dwenDescriptor.fuseType ≠ newFuseValue then
        { programmedFuses := [(dwenDescriptor.fuseType, newFuseValue)], ok := false }
      else
        { programmedFuses := [(dwenDescriptor.fuseType, newFuseValue)], ok := true }

/--
`TargetController::Commands::ReadTargetMemory::requiresDebugMode()`
(ReadTargetMemory.hpp:46-48): a memory read requires debug mode (that is, must
be rejected while programming mode is active) exactly when it targets RAM.
-/
def readTargetMemoryRequiresDebugMode (memoryType : TargetMemoryType) : Bool :=
  memoryType = .RAM

/--
Modelled from the spec: the `WriteTargetMemory` command class and the
target-controller dispatch loop are not among the sources. Per the spec
("each command declares ... `requires_debug_mode`; the service rejects a
command pre-dispatch if any precondition fails" and "While set: RAM memory
operations are forbidden"), the write-memory command requires debug mode
exactly when it targets RAM, mirroring `ReadTargetMemory`.
-/
def writeTargetMemoryRequiresDebugMode (memoryType : TargetMemoryType) : Bool :=
  memoryType = .RAM

/--
Modelled from the spec: the target-control service (not among the sources)
rejects, before dispatch, any command that requires debug mode while the
programming-mode flag is set.
-/
def serviceAdmitsCommand (programmingModeEnabled requiresDebugMode : Bool) : Bool :=
  !(programmingModeEnabled && requiresDebugMode)

/--
The FLASH gate of `Avr8::writeMemory()` (Avr8.cpp:409-415): a FLASH write with
no active programming session throws before reaching the debug interface.
Returns `true` when the write is forwarded to `avr8DebugInterface->writeMemory`.
-/
def avr8WriteMemoryForwards (programmingModeEnabled : Bool)
    (memoryType : TargetMemoryType) : Bool :=
  !(memoryType = .FLASH && !programmingModeEnabled)

/--
The write path from the target-control service through `Avr8::writeMemory()`:
`true` when the write reaches the debug interface, `false` when a gate
rejected it with an error (leaving the target unchanged).
-/
def writeMemoryPipelineForwards (programmingModeEnabled : Bool)
    (memoryType : TargetMemoryType) : Bool :=
  serviceAdmitsCommand programmingModeEnabled (writeTargetMemoryRequiresDebugMode memoryType)
    && avr8WriteMemoryForwards programmingModeEnabled memoryType

/--
The RAM gate of `EdbgAvr8Interface::readMemory()` (EdbgAvr8Interface.cpp:614-616):
a RAM read while programming mode is enabled throws
("Cannot access RAM when programming mode is enabled"). Returns `true` when
the read proceeds past the gate.
-/
def edbgReadMemoryAccepts (programmingModeEnabled : Bool)
    (memoryType : TargetMemoryType) : Bool :=
  !(programmingModeEnabled && memoryType = .RAM)

/--
Modelled from the spec: `Packet::hexToData()` (GDB packet helper, not among
the sources) decodes hex-encoded memory data, two nibbles per byte, big-endian
within each byte; input that is not a well-formed hex encoding of bytes (an
unpaired trailing nibble) does not decode. Nibbles are the already-parsed
digit values (0..15).
-/
def hexToData : List Nat → Option (List Nat)
  | [] => some []
  | [_] => none
  | highNibble :: lowNibble :: rest =>
    (hexToData rest).map (fun tail => (highNibble * 16 + lowNibble) :: tail)

/--
The data-length validation of the `WriteMemory` packet constructor
(WriteMemory.cpp:64-68): decode the hex data and fail unless the decoded
buffer size equals the length stated in the packet. The address segment, the
`,`/`:` segmentation and the GDB-address → memory-type resolution happen
earlier in the constructor and are orthogonal to this check; `none` models the
constructor throwing.
-/
def parseWriteMemoryData (length : Nat) (dataNibbles : List Nat) : Option (List Nat) :=
  match hexToData dataNibbles with
  | none => none
  | some buffer => if buffer.length ≠ length then none else some buffer

/-- A target memory descriptor's address range, per `TargetMemoryAddressRange`. -/
structure MemoryAddressRange where
  startAddress : Nat
  endAddress : Nat
deriving DecidableEq, Repr

/-- The RSP reply sent by a command handler: `OkResponsePacket` or
`ErrorResponsePacket`. -/
inductive GdbResponse
  | okResponse
  | errorResponse
deriving DecidableEq, Repr

/--
`WriteMemory::handle()` (WriteMemory.cpp:71-138). Inputs: the packet's
resolved memory type, start address and decoded buffer, and the target's
memory descriptor range for that type (`none` when the target does not
support the type). Output: the RSP reply and the list of writes forwarded to
`targetControllerService.writeMemory` (at most one).
-/
def writeMemoryHandle (memoryType : TargetMemoryType) (startAddress : Nat)
    (buffer : List Nat) (descriptorRange : Option MemoryAddressRange) :
    GdbResponse × List (TargetMemoryType × Nat × List Nat) :=
  match descriptorRange with
  | none => (.errorResponse, [])
  | some range =>
    if memoryType = .FLASH then (.errorResponse, [])
    else if buffer.length = 0 then (.okResponse, [])
    else
      let startAddress :=
        if memoryType = .EEPROM then range.startAddress + startAddress else startAddress
      let memoryStartAddress := if memoryType = .RAM then 0 else range.startAddress
      if startAddress < memoryStartAddress
          ∨ startAddress + (buffer.length - 1) > range.endAddress then
        (.errorResponse, [])
      else
        (.okResponse, [(memoryType, startAddress, buffer)])

/-! Helper lemmas shared by the claim theorems. -/

theorem le_alignUpMul (a b : Nat) (ha : 0 < a) : b ≤ ((b + a - 1) / a) * a := by
  match b with
  | 0 => exact Nat.zero_le _
  | c + 1 =>
    have h3 : c + 1 + a - 1 = c + a := by omega
    rw [h3, Nat.add_div_right _ ha, Nat.succ_mul]
    have h5 := Nat.div_add_mod c a
    have h4 : c % a < a := Nat.mod_lt _ ha
    have h6 : c / a * a = a * (c / a) := Nat.mul_comm _ _
    omega

theorem alignUpMul_dvd (a b : Nat) : a ∣ ((b + a - 1) / a) * a :=
  dvd_mul_left a _

theorem chunkSizes_length (max : Nat) (hmax : 0 < max) :
    ∀ b, 0 < b → (chunkSizes max b).length = (b + max - 1) / max := by
  intro b
  induction b using Nat.strong_induction_on with
  | _ b ih =>
    intro hb
    rw [chunkSizes]
    have hmax0 : ¬ max = 0 := by omega
    have hb0 : ¬ b = 0 := by omega
    simp only [hb0, hmax0, if_false]
    by_cases hle : b ≤ max
    · simp only [hle, if_true, List.length_singleton]
      have h1 : 1 * max ≤ b + max - 1 := by omega
      have h2 : b + max - 1 < (1 + 1) * max := by omega
      exact (Nat.div_eq_of_lt_le h1 h2).symm
    · simp only [hle, if_false, List.length_cons]
      have hrec : (chunkSizes max (b - max)).length = (b - max + max - 1) / max :=
        ih (b - max) (by omega) (by omega)
      have heq : b - max + max - 1 = b - 1 := by omega
      rw [hrec, heq]
      have heq2 : b + max - 1 = b - 1 + max := by omega
      rw [heq2, Nat.add_div_right _ hmax]

theorem chunkSizes_le (max : Nat) (hmax : 0 < max) :
    ∀ b, ∀ c ∈ chunkSizes max b, c ≤ max := by
  intro b
  induction b using Nat.strong_induction_on with
  | _ b ih =>
    intro c hc
    rw [chunkSizes] at hc
    have hmax0 : ¬ max = 0 := by omega
    by_cases hb0 : b = 0
    · simp [hb0] at hc
    · simp only [hb0, hmax0, if_false] at hc
      by_cases hle : b ≤ max
      · simp only [hle, if_true, List.mem_singleton] at hc
        omega
      · simp only [hle, if_false, List.mem_cons] at hc
        rcases hc with rfl | hc
        · exact Nat.le_refl _
        · exact ih (b - max) (by omega) c hc

theorem hexToData_length : ∀ (l b : List Nat), hexToData l = some b → l.length = 2 * b.length
  | [], b => by
    intro h
    simp only [hexToData, Option.some.injEq] at h
    subst h
    rfl
  | [_], b => by
    intro h
    simp [hexToData] at h
  | _ :: _ :: rest, b => by
    intro h
    simp only [hexToData, Option.map_eq_some'] at h
    obtain ⟨tail, htail, rfl⟩ := h
    have := hexToData_length rest tail htail
    simp only [List.length_cons, this]
    omega

theorem consumeUntilBreak_mem : ∀ (l r : List AvrEvent),
    consumeUntilBreak l = some r → AvrEvent.breakEvent ∈ l
  | [], r => by intro h; simp [consumeUntilBreak] at h
  | .breakEvent :: rest, r => by intro _; exact List.mem_cons_self _ _
  | .otherEvent :: rest, r => by
    intro h
    simp only [consumeUntilBreak] at h
    exact List.mem_cons_of_mem _ (consumeUntilBreak_mem rest r h)

theorem refreshTargetState_events (s : IfaceState) :
    (refreshTargetState s).events = s.events.tail := by
  rcases s with ⟨st, events⟩
  cases events with
  | nil => simp [refreshTargetState, getAvrEvent]
  | cons e rest =>
    simp only [refreshTargetState, getAvrEvent]
    split <;> rfl

theorem refreshTargetState_stopped (s : IfaceState)
    (h : (refreshTargetState s).targetState = .STOPPED) : AvrEvent.breakEvent ∈ s.events := by
  rcases s with ⟨st, events⟩
  cases events with
  | nil => simp [refreshTargetState, getAvrEvent] at h
  | cons e rest =>
    simp only [refreshTargetState, getAvrEvent] at h
    by_cases he : e = AvrEvent.breakEvent
    · subst he; exact List.mem_cons_self _ _
    · have : ¬ (some e = some AvrEvent.breakEvent) := by simp [he]
      simp only [this, if_false] at h
      cases h

theorem refreshTargetState_cases (s : IfaceState) :
    (refreshTargetState s).targetState = .STOPPED
      ∨ (refreshTargetState s).targetState = .RUNNING := by
  simp only [refreshTargetState]
  split
  · exact Or.inl rfl
  · exact Or.inr rfl

theorem waitForStoppedEventFn_true_stopped (s : IfaceState)
    (h : (waitForStoppedEventFn s).2 = true) :
    (waitForStoppedEventFn s).1.targetState = .STOPPED := by
  rcases hc : consumeUntilBreak s.events with _ | rest
  · simp [waitForStoppedEventFn, hc] at h
  · simp [waitForStoppedEventFn, hc]

theorem waitForStoppedEventFn_mem (s : IfaceState)
    (h : (waitForStoppedEventFn s).2 = true) : AvrEvent.breakEvent ∈ s.events := by
  simp only [waitForStoppedEventFn] at h
  split at h
  · next rest heq => exact consumeUntilBreak_mem _ _ heq
  · simp at h

theorem waitForStoppedEventFn_stopped_cases (s : IfaceState)
    (h : (waitForStoppedEventFn s).1.targetState = .STOPPED) :
    AvrEvent.breakEvent ∈ s.events ∨ s.targetState = .STOPPED := by
  simp only [waitForStoppedEventFn] at h
  split at h
  · next rest heq => exact Or.inl (consumeUntilBreak_mem _ _ heq)
  · exact Or.inr h

theorem getTargetStateFn_of_stopped (s : IfaceState) (h : s.targetState = .STOPPED) :
    getTargetStateFn s = (s.targetState, s) := by
  simp [getTargetStateFn, h]

theorem stopFn_true_stopped (s : IfaceState) (commandOk : Bool)
    (h : (stopFn s commandOk).2 = true) : (stopFn s commandOk).1.targetState = .STOPPED := by
  cases commandOk with
  | false => simp [stopFn] at h
  | true =>
    simp only [stopFn, Bool.not_true, Bool.false_eq_true, if_false] at *
    by_cases hst : s.targetState = TargetState.STOPPED
    · rw [getTargetStateFn_of_stopped s hst] at *
      simp only at *
      rw [if_neg (by rw [hst]; intro hcon; cases hcon)] at *
      exact hst
    · simp only [getTargetStateFn, hst, ne_eq, not_false_eq_true, if_true] at *
      rcases refreshTargetState_cases s with hcase | hcase
      · rw [if_neg (by rw [hcase]; intro hcon; cases hcon)] at *
        exact hcase
      · rw [if_pos hcase] at *
        exact waitForStoppedEventFn_true_stopped _ h

theorem stopFn_stopped_source (s : IfaceState) (commandOk : Bool)
    (h : (stopFn s commandOk).1.targetState = .STOPPED) :
    AvrEvent.breakEvent ∈ s.events ∨ s.targetState = .STOPPED := by
  cases commandOk with
  | false => simp only [stopFn, Bool.not_false, if_true] at h; exact Or.inr h
  | true =>
    simp only [stopFn, Bool.not_true, Bool.false_eq_true, if_false] at h
    by_cases hst : s.targetState = TargetState.STOPPED
    · exact Or.inr hst
    · simp only [getTargetStateFn, hst, ne_eq, not_false_eq_true, if_true] at h
      rcases refreshTargetState_cases s with hcase | hcase
      · rw [if_neg (by rw [hcase]; intro hcon; cases hcon)] at h
        exact Or.inl (refreshTargetState_stopped s hcase)
      · rw [if_pos hcase] at h
        rcases waitForStoppedEventFn_stopped_cases _ h with hmem | hstop
        · rw [refreshTargetState_events] at hmem
          exact Or.inl (List.mem_of_mem_tail hmem)
        · rw [hcase] at hstop
          cases hstop

theorem alignMemoryAddress_le (config : EdbgMemoryConfig) (memoryType : Avr8MemoryType)
    (address : Nat) : alignMemoryAddress config memoryType address ≤ address := by
  simp only [alignMemoryAddress]
  split
  · exact Nat.div_mul_le_self _ _
  · exact Nat.le_refl _

theorem alignMemoryAddress_dvd (config : EdbgMemoryConfig) (memoryType : Avr8MemoryType)
    (address : Nat) :
    alignmentSize config memoryType ∣ alignMemoryAddress config memoryType address := by
  simp only [alignMemoryAddress]
  split
  · exact dvd_mul_left _ _
  · next hmod => exact Nat.dvd_of_mod_eq_zero (by omega)

theorem alignMemoryBytes_le (config : EdbgMemoryConfig) (memoryType : Avr8MemoryType)
    (bytes : Nat) (h : 0 < alignmentSize config memoryType) :
    bytes ≤ alignMemoryBytes config memoryType bytes := by
  simp only [alignMemoryBytes]
  split
  · exact le_alignUpMul _ _ h
  · exact Nat.le_refl _

theorem alignMemoryBytes_dvd (config : EdbgMemoryConfig) (memoryType : Avr8MemoryType)
    (bytes : Nat) :
    alignmentSize config memoryType ∣ alignMemoryBytes config memoryType bytes := by
  simp only [alignMemoryBytes]
  split
  · exact dvd_mul_left _ _
  · next hmod => exact Nat.dvd_of_mod_eq_zero (by omega)

/-!  Claim theorems. -/

/--
C3: for every (family, physical interface) pair in the fixed variant table,
`resolveConfigVariant` returns exactly the table's variant (MEGA/TINY+JTAG →
MEGAJTAG, MEGA/TINY+DEBUG_WIRE → DEBUG_WIRE, MEGA/TINY+UPDI → UPDI,
XMEGA+JTAG/PDI → XMEGA, DA/DB/DD/EA+UPDI → UPDI) and `none` outside the
table; with an unknown family, the fallback map resolves DEBUG_WIRE, PDI and
UPDI but rejects JTAG.
-/
theorem resolveConfigVariant_matchesSpecTable :
    (∀ (family : Family) (physicalInterface : PhysicalInterface),
        resolveConfigVariant (some family) physicalInterface
          = specVariantTable family physicalInterface)
      ∧ resolveConfigVariant none .DEBUG_WIRE = some .DEBUG_WIRE
      ∧ resolveConfigVariant none .PDI = some .XMEGA
      ∧ resolveConfigVariant none .UPDI = some .UPDI
      ∧ resolveConfigVariant none .JTAG = none := by
  refine ⟨?_, rfl, rfl, rfl, rfl⟩
  intro family physicalInterface
  cases family <;> cases physicalInterface <;> rfl

/--
C4: for every memory type requiring alignment, the aligned address is a
multiple of the type's alignment (flash page size for
FLASH_PAGE/SPM/APPL_FLASH/BOOT_FLASH, EEPROM page size for
EEPROM_ATOMIC/EEPROM_PAGE) and does not exceed the requested address, and the
aligned length of `len + (addr - addr')` is a multiple of the same alignment
and at least `len + (addr - addr')`.
-/
theorem alignMemory_spec :
    ∀ (config : EdbgMemoryConfig) (memoryType : Avr8MemoryType) (addr len : Nat),
      alignmentRequired memoryType = true →
      0 < alignmentSize config memoryType →
      alignMemoryAddress config memoryType addr ≤ addr
        ∧ alignmentSize config memoryType ∣ alignMemoryAddress config memoryType addr
        ∧ len + (addr - alignMemoryAddress config memoryType addr)
            ≤ alignMemoryBytes config memoryType
                (len + (addr - alignMemoryAddress config memoryType addr))
        ∧ alignmentSize config memoryType ∣ alignMemoryBytes config memoryType
            (len + (addr - alignMemoryAddress config memoryType addr))
        ∧ ((memoryType = .FLASH_PAGE ∨ memoryType = .SPM ∨ memoryType = .APPL_FLASH
              ∨ memoryType = .BOOT_FLASH) →
            alignmentSize config memoryType = config.flashPageSize)
        ∧ ((memoryType = .EEPROM_ATOMIC ∨ memoryType = .EEPROM_PAGE) →
            alignmentSize config memoryType = config.eepromPageSize) := by
  intro config memoryType addr len _ halign
  refine ⟨alignMemoryAddress_le config memoryType addr,
    alignMemoryAddress_dvd config memoryType addr,
    alignMemoryBytes_le config memoryType _ halign,
    alignMemoryBytes_dvd config memoryType _, ?_, ?_⟩
  · rintro (rfl | rfl | rfl | rfl) <;> rfl
  · rintro (rfl | rfl) <;> rfl

/-- Witness for C4, at a concrete unaligned flash-page request. -/
theorem alignMemory_spec_witness :
    alignmentRequired .FLASH_PAGE = true
      ∧ 0 < alignmentSize ⟨128, 8, .UPDI, none, 512⟩ .FLASH_PAGE
      ∧ (alignMemoryAddress ⟨128, 8, .UPDI, none, 512⟩ .FLASH_PAGE 300 ≤ 300
        ∧ alignmentSize ⟨128, 8, .UPDI, none, 512⟩ .FLASH_PAGE
            ∣ alignMemoryAddress ⟨128, 8, .UPDI, none, 512⟩ .FLASH_PAGE 300
        ∧ 10 + (300 - alignMemoryAddress ⟨128, 8, .UPDI, none, 512⟩ .FLASH_PAGE 300)
            ≤ alignMemoryBytes ⟨128, 8, .UPDI, none, 512⟩ .FLASH_PAGE
                (10 + (300 - alignMemoryAddress ⟨128, 8, .UPDI, none, 512⟩ .FLASH_PAGE 300))
        ∧ alignmentSize ⟨128, 8, .UPDI, none, 512⟩ .FLASH_PAGE
            ∣ alignMemoryBytes ⟨128, 8, .UPDI, none, 512⟩ .FLASH_PAGE
                (10 + (300 - alignMemoryAddress ⟨128, 8, .UPDI, none, 512⟩ .FLASH_PAGE 300))
        ∧ ((Avr8MemoryType.FLASH_PAGE = .FLASH_PAGE ∨ Avr8MemoryType.FLASH_PAGE = .SPM
              ∨ Avr8MemoryType.FLASH_PAGE = .APPL_FLASH
              ∨ Avr8MemoryType.FLASH_PAGE = .BOOT_FLASH) →
            alignmentSize ⟨128, 8, .UPDI, none, 512⟩ .FLASH_PAGE
              = (⟨128, 8, .UPDI, none, 512⟩ : EdbgMemoryConfig).flashPageSize)
        ∧ ((Avr8MemoryType.FLASH_PAGE = .EEPROM_ATOMIC
              ∨ Avr8MemoryType.FLASH_PAGE = .EEPROM_PAGE) →
            alignmentSize ⟨128, 8, .UPDI, none, 512⟩ .FLASH_PAGE
              = (⟨128, 8, .UPDI, none, 512⟩ : EdbgMemoryConfig).eepromPageSize)) :=
  ⟨by decide, by decide,
    alignMemory_spec ⟨128, 8, .UPDI, none, 512⟩ .FLASH_PAGE 300 10 (by decide) (by decide)⟩

/--
C6: `setProgramCounter` sends the byte address divided by 2 (a word address)
on the wire, `getProgramCounter` converts the probe's word address back to a
byte address, and for every even byte address within flash the round trip is
the identity.
-/
theorem programCounterRoundTrip :
    ∀ (byteAddress flashEnd : Nat),
      byteAddress % 2 = 0 →
      byteAddress ≤ flashEnd →
      getProgramCounterAfterSet byteAddress = byteAddress
        ∧ setProgramCounterSentWord byteAddress = byteAddress / 2 := by
  intro byteAddress flashEnd hx _
  refine ⟨?_, rfl⟩
  simpa [getProgramCounterAfterSet, extractProgramCounter, setProgramCounterSentWord]
    using Nat.div_mul_cancel (Nat.dvd_of_mod_eq_zero hx)

/-- Witness for C6, at byte address 0x9C within a 0x4000-byte flash. -/
theorem programCounterRoundTrip_witness :
    156 % 2 = 0 ∧ 156 ≤ 16384
      ∧ (getProgramCounterAfterSet 156 = 156 ∧ setProgramCounterSentWord 156 = 156 / 2) :=
  ⟨by decide, by decide, programCounterRoundTrip 156 16384 (by decide) (by decide)⟩

/--
C5: when a memory access exceeds the per-type maximum size (one flash page
for FLASH_PAGE/APPL_FLASH/BOOT_FLASH and MEGAJTAG SPM, one EEPROM page for
EEPROM_ATOMIC/EEPROM_PAGE, and `(hid_report_size - 30) * 2` bytes otherwise,
in the absence of a per-instance override), it is split into exactly
`ceil(len / max)` transport transactions, each of length at most `max`.
-/
theorem memoryAccessChunking_spec :
    ∀ (config : EdbgMemoryConfig) (memoryType : Avr8MemoryType) (bytes : Nat),
      config.maximumMemoryAccessSizePerRequest = none →
      0 < maximumMemoryAccessSize config memoryType →
      maximumMemoryAccessSize config memoryType < bytes →
      (memoryAccessTransactionSizes config memoryType bytes).length
          = (bytes + maximumMemoryAccessSize config memoryType - 1)
              / maximumMemoryAccessSize config memoryType
        ∧ (∀ c ∈ memoryAccessTransactionSizes config memoryType bytes,
            c ≤ maximumMemoryAccessSize config memoryType)
        ∧ ((memoryType = .FLASH_PAGE ∨ memoryType = .APPL_FLASH ∨ memoryType = .BOOT_FLASH
              ∨ (memoryType = .SPM ∧ config.configVariant = .MEGAJTAG)) →
            maximumMemoryAccessSize config memoryType = config.flashPageSize)
        ∧ ((memoryType = .EEPROM_ATOMIC ∨ memoryType = .EEPROM_PAGE) →
            maximumMemoryAccessSize config memoryType = config.eepromPageSize)
        ∧ ((¬ (memoryType = .FLASH_PAGE ∨ memoryType = .APPL_FLASH
                ∨ memoryType = .BOOT_FLASH
                ∨ (memoryType = .SPM ∧ config.configVariant = .MEGAJTAG)))
            → (¬ (memoryType = .EEPROM_ATOMIC ∨ memoryType = .EEPROM_PAGE))
            → maximumMemoryAccessSize config memoryType
                = (config.usbHidInputReportSize - 30) * 2) := by
  intro config memoryType bytes hnone hpos hover
  have hchunk : memoryAccessTransactionSizes config memoryType bytes
      = chunkSizes (maximumMemoryAccessSize config memoryType) bytes := by
    simp [memoryAccessTransactionSizes, hover]
  refine ⟨?_, ?_, ?_, ?_, ?_⟩
  · rw [hchunk]
    exact chunkSizes_length _ hpos bytes (by omega)
  · intro c hc
    rw [hchunk] at hc
    exact chunkSizes_le _ hpos bytes c hc
  · rintro (rfl | rfl | rfl | ⟨rfl, hvar⟩)
    · rfl
    · rfl
    · rfl
    · simp [maximumMemoryAccessSize, hvar]
  · rintro (rfl | rfl) <;> rfl
  · intro hflash heeprom
    cases memoryType <;>
      simp_all [maximumMemoryAccessSize]

/-- Witness for C5: a 2000-byte SRAM read with a 512-byte HID report size. -/
theorem memoryAccessChunking_spec_witness :
    (⟨128, 8, .UPDI, none, 512⟩ : EdbgMemoryConfig).maximumMemoryAccessSizePerRequest = none
      ∧ 0 < maximumMemoryAccessSize ⟨128, 8, .UPDI, none, 512⟩ .SRAM
      ∧ maximumMemoryAccessSize ⟨128, 8, .UPDI, none, 512⟩ .SRAM < 2000
      ∧ ((memoryAccessTransactionSizes ⟨128, 8, .UPDI, none, 512⟩ .SRAM 2000).length
          = (2000 + maximumMemoryAccessSize ⟨128, 8, .UPDI, none, 512⟩ .SRAM - 1)
              / maximumMemoryAccessSize ⟨128, 8, .UPDI, none, 512⟩ .SRAM
        ∧ (∀ c ∈ memoryAccessTransactionSizes ⟨128, 8, .UPDI, none, 512⟩ .SRAM 2000,
            c ≤ maximumMemoryAccessSize ⟨128, 8, .UPDI, none, 512⟩ .SRAM)
        ∧ ((Avr8MemoryType.SRAM = .FLASH_PAGE ∨ Avr8MemoryType.SRAM = .APPL_FLASH
              ∨ Avr8MemoryType.SRAM = .BOOT_FLASH
              ∨ (Avr8MemoryType.SRAM = .SPM
                  ∧ (⟨128, 8, .UPDI, none, 512⟩ : EdbgMemoryConfig).configVariant = .MEGAJTAG)) →
            maximumMemoryAccessSize ⟨128, 8, .UPDI, none, 512⟩ .SRAM
              = (⟨128, 8, .UPDI, none, 512⟩ : EdbgMemoryConfig).flashPageSize)
        ∧ ((Avr8MemoryType.SRAM = .EEPROM_ATOMIC ∨ Avr8MemoryType.SRAM = .EEPROM_PAGE) →
            maximumMemoryAccessSize ⟨128, 8, .UPDI, none, 512⟩ .SRAM
              = (⟨128, 8, .UPDI, none, 512⟩ : EdbgMemoryConfig).eepromPageSize)
        ∧ ((¬ (Avr8MemoryType.SRAM = .FLASH_PAGE ∨ Avr8MemoryType.SRAM = .APPL_FLASH
                ∨ Avr8MemoryType.SRAM = .BOOT_FLASH
                ∨ (Avr8MemoryType.SRAM = .SPM
                    ∧ (⟨128, 8, .UPDI, none, 512⟩ : EdbgMemoryConfig).configVariant
                        = .MEGAJTAG)))
            → (¬ (Avr8MemoryType.SRAM = .EEPROM_ATOMIC
                    ∨ Avr8MemoryType.SRAM = .EEPROM_PAGE))
            → maximumMemoryAccessSize ⟨128, 8, .UPDI, none, 512⟩ .SRAM
                = ((⟨128, 8, .UPDI, none, 512⟩ : EdbgMemoryConfig).usbHidInputReportSize
                    - 30) * 2)) :=
  ⟨rfl, by decide, by decide,
    memoryAccessChunking_spec ⟨128, 8, .UPDI, none, 512⟩ .SRAM 2000 rfl
      (by decide) (by decide)⟩

/--
C2: the target-state variable leaves RUNNING for STOPPED only when a decoded
AVR8 Break event is observed (including the Break event an explicit stop
waits for), leaves STOPPED for RUNNING only under run, step, runTo or reset,
and a state query on a STOPPED target polls nothing and changes nothing.
-/
theorem targetStateTransitions :
    ∀ (s : IfaceState) (op : DebugOp) (commandOk : Bool),
      (s.targetState = .RUNNING →
        (applyDebugOp s op commandOk).1.targetState = .STOPPED →
        AvrEvent.breakEvent ∈ s.events)
      ∧ (s.targetState = .STOPPED →
          (applyDebugOp s op commandOk).1.targetState = .RUNNING →
          op = .runOp ∨ op = .runToOp ∨ op = .stepOp ∨ op = .resetOp)
      ∧ (s.targetState = .STOPPED →
          applyDebugOp s .getTargetStateOp commandOk = (s, true)) := by
  intro s op commandOk
  refine ⟨?_, ?_, ?_⟩
  · intro hrun hstop
    cases op with
    | runOp => cases commandOk <;> simp [applyDebugOp, runFn, clearEvents, hrun] at hstop
    | runToOp => cases commandOk <;> simp [applyDebugOp, runToFn, clearEvents, hrun] at hstop
    | stepOp => cases commandOk <;> simp [applyDebugOp, stepFn, hrun] at hstop
    | resetOp =>
      cases commandOk with
      | false => simp [applyDebugOp, resetFn, hrun] at hstop
      | true =>
        simp only [applyDebugOp, resetFn, if_true] at hstop
        rcases waitForStoppedEventFn_stopped_cases s hstop with hmem | hs
        · exact hmem
        · rw [hrun] at hs; cases hs
    | stopOp =>
      have hstop' : (stopFn s commandOk).1.targetState = .STOPPED := hstop
      rcases stopFn_stopped_source s commandOk hstop' with hmem | hs
      · exact hmem
      · rw [hrun] at hs; cases hs
    | getTargetStateOp =>
      simp only [applyDebugOp, getTargetStateFn, hrun] at hstop
      rw [if_pos (by intro hcon; cases hcon)] at hstop
      exact refreshTargetState_stopped s hstop
  · intro hstopped hrunning
    cases op with
    | runOp => exact Or.inl rfl
    | runToOp => exact Or.inr (Or.inl rfl)
    | stepOp => exact Or.inr (Or.inr (Or.inl rfl))
    | resetOp => exact Or.inr (Or.inr (Or.inr rfl))
    | stopOp =>
      exfalso
      cases commandOk with
      | false => simp [applyDebugOp, stopFn, hstopped] at hrunning
      | true =>
        have hred : applyDebugOp s .stopOp true = stopFn s true := rfl
        rw [hred] at hrunning
        simp only [stopFn, Bool.not_true, Bool.false_eq_true, if_false] at hrunning
        rw [getTargetStateFn_of_stopped s hstopped] at hrunning
        rw [hstopped] at hrunning
        rw [if_neg (fun hcon => TargetState.noConfusion hcon)] at hrunning
        exact absurd (hstopped.symm.trans hrunning) (by decide)
    | getTargetStateOp =>
      simp [applyDebugOp, getTargetStateFn, hstopped] at hrunning
  · intro hstopped
    simp [applyDebugOp, getTargetStateFn, hstopped]

/--
Witness for C2: from a RUNNING target with one pending Break event, an
explicit stop transitions to STOPPED and the Break event was indeed pending.
-/
theorem targetStateTransitions_witness :
    (IfaceState.mk .RUNNING [.breakEvent]).targetState = .RUNNING
      ∧ (applyDebugOp ⟨.RUNNING, [.breakEvent]⟩ .stopOp true).1.targetState = .STOPPED
      ∧ AvrEvent.breakEvent ∈ (IfaceState.mk .RUNNING [.breakEvent]).events :=
  ⟨rfl, by decide,
    (targetStateTransitions ⟨.RUNNING, [.breakEvent]⟩ .stopOp true).1 rfl (by decide)⟩

/--
Counterexample to C7 as stated: `step` does not drain the pending event
queue before sending the Step command frame — a successful step from a state
with one stale pending event leaves that event queued, while the claim (which
asserts the queue is cleared beforehand for run, step and run_to alike)
requires it gone.
-/
theorem runStepRunToClearEvents_counterexample :
    (stepFn ⟨.STOPPED, [.otherEvent]⟩ true).2 = true
      ∧ (stepFn ⟨.STOPPED, [.otherEvent]⟩ true).1.events = [.otherEvent] := by
  decide

/--
C7 amended: `run` and `run_to` drain the pending event queue before sending
their command frames; `step` leaves the queue untouched; on a successful
response each of the three sets the target state to RUNNING.
-/
theorem runStepRunToClearEvents_amended :
    ∀ (s : IfaceState) (commandOk : Bool),
      (runFn s commandOk).1.events = []
        ∧ (runToFn s commandOk).1.events = []
        ∧ (stepFn s commandOk).1.events = s.events
        ∧ (commandOk = true →
            (runFn s commandOk).1.targetState = .RUNNING
              ∧ (runFn s commandOk).2 = true
              ∧ (runToFn s commandOk).1.targetState = .RUNNING
              ∧ (runToFn s commandOk).2 = true
              ∧ (stepFn s commandOk).1.targetState = .RUNNING
              ∧ (stepFn s commandOk).2 = true) := by
  intro s commandOk
  cases commandOk <;> simp [runFn, runToFn, stepFn, clearEvents]

/-- Witness for C7 (amended), at a successful step with one stale event. -/
theorem runStepRunToClearEvents_amended_witness :
    (runFn ⟨.STOPPED, [.otherEvent]⟩ true).1.events = []
      ∧ (stepFn ⟨.STOPPED, [.otherEvent]⟩ true).1.events
          = (IfaceState.mk .STOPPED [.otherEvent]).events
      ∧ (stepFn ⟨.STOPPED, [.otherEvent]⟩ true).1.targetState = .RUNNING :=
  ⟨(runStepRunToClearEvents_amended ⟨.STOPPED, [.otherEvent]⟩ true).1,
    (runStepRunToClearEvents_amended ⟨.STOPPED, [.otherEvent]⟩ true).2.2.1,
    ((runStepRunToClearEvents_amended ⟨.STOPPED, [.otherEvent]⟩ true).2.2.2 rfl).2.2.2.2.1⟩

/--
C10: when a GetPC/SetPC is requested while the target state is not STOPPED,
a stop (waiting for the Break event) is issued first, and the GetPC/SetPC
command frame is only ever sent while the target state is STOPPED.
-/
theorem programCounterStoppedTarget :
    ∀ (s : IfaceState) (stopCommandOk : Bool) (s' : IfaceState),
      programCounterPreFrameState s stopCommandOk = some s' →
      s'.targetState = .STOPPED
        ∧ (s.targetState ≠ .STOPPED →
            (stopFn s stopCommandOk).2 = true ∧ s' = (stopFn s stopCommandOk).1) := by
  intro s commandOk s' h
  by_cases hst : s.targetState = TargetState.STOPPED
  · have hs : s = s' := by simpa [programCounterPreFrameState, hst] using h
    subst hs
    exact ⟨hst, fun hcon => absurd hst hcon⟩
  · cases hok : (stopFn s commandOk).2 with
    | false => simp [programCounterPreFrameState, hst, hok] at h
    | true =>
      have h1 : (stopFn s commandOk).1 = s' := by
        simpa [programCounterPreFrameState, hst, hok] using h
      refine ⟨?_, fun _ => ⟨rfl, h1.symm⟩⟩
      rw [← h1]
      exact stopFn_true_stopped s commandOk hok

/--
Witness for C10: a RUNNING target with a pending Break event is stopped
before the program-counter frame goes out.
-/
theorem programCounterStoppedTarget_witness :
    programCounterPreFrameState ⟨.RUNNING, [.breakEvent]⟩ true
        = some ⟨.STOPPED, []⟩
      ∧ (IfaceState.mk .STOPPED []).targetState = .STOPPED :=
  ⟨by decide,
    (programCounterStoppedTarget ⟨.RUNNING, [.breakEvent]⟩ true ⟨.STOPPED, []⟩
      (by decide)).1⟩

/--
C1: the DWEN fuse update issues no fuse-programming write when the ISP-read
signature differs from the descriptor's, when the SPIEN fuse bit reads as
unprogrammed (nonzero under its mask), or when the lock-bit byte is not 0xFF;
and after a fuse rewrite the fuse byte is read back and the operation fails
when the read-back value differs from the value written.
-/
theorem updateDwenFuseBit_safety :
    ∀ (oracle : IspOracle) (expectedSignature : Nat)
      (dwenDescriptor spienDescriptor : FuseBitsDescriptor) (enable : Bool),
      ((oracle.deviceId ≠ expectedSignature
          ∨ oracle.fuseValue spienDescriptor.fuseType &&& spienDescriptor.bitMask ≠ 0
          ∨ oracle.lockBitByte ≠ 0xFF) →
        (updateDwenFuseBit oracle expectedSignature dwenDescriptor spienDescriptor
            enable).programmedFuses = [])
      ∧ (∀ (fuseType : FuseType) (value : Nat),
          (updateDwenFuseBit oracle expectedSignature dwenDescriptor spienDescriptor
              enable).programmedFuses = [(fuseType, value)] →
          oracle.fuseValueAfterProgram fuseType ≠ value →
          (updateDwenFuseBit oracle expectedSignature dwenDescriptor spienDescriptor
              enable).ok = false) := by
  intro oracle expectedSignature dwenDescriptor spienDescriptor enable
  constructor
  · intro h
    by_cases hsp : spienDescriptor.fuseType = dwenDescriptor.fuseType
    · rcases h with h | h | h <;>
        simp only [updateDwenFuseBit, hsp] <;> split_ifs <;> simp_all
    · rcases h with h | h | h <;>
        simp only [updateDwenFuseBit] <;> split_ifs <;> simp_all
  · intro fuseType value hlist hneq
    simp only [updateDwenFuseBit] at hlist ⊢
    split_ifs at hlist ⊢ <;>
      first
        | rfl
        | (simp_all; done)
        | (simp_all
           obtain ⟨hft, hval⟩ := hlist
           subst hft
           exact hneq hval)

/--
Witness for C1: a signature mismatch yields no fuse write, and a rewrite
whose read-back (0x40) differs from the written value (0x00) fails.
-/
theorem updateDwenFuseBit_safety_witness :
    ((1 : Nat) ≠ 2
        ∨ (IspOracle.mk 1 (fun _ => 0) (fun _ => 0) 255).fuseValue FuseType.low &&& 32 ≠ 0
        ∨ (255 : Nat) ≠ 0xFF)
      ∧ (updateDwenFuseBit ⟨1, fun _ => 0, fun _ => 0, 255⟩ 2 ⟨.low, 64⟩ ⟨.low, 32⟩
          true).programmedFuses = []
      ∧ (updateDwenFuseBit ⟨2, fun _ => 64, fun _ => 64, 255⟩ 2 ⟨.low, 64⟩ ⟨.low, 32⟩
          true).programmedFuses = [(.low, 0)]
      ∧ (IspOracle.mk 2 (fun _ => 64) (fun _ => 64) 255).fuseValueAfterProgram FuseType.low ≠ 0
      ∧ (updateDwenFuseBit ⟨2, fun _ => 64, fun _ => 64, 255⟩ 2 ⟨.low, 64⟩ ⟨.low, 32⟩
          true).ok = false :=
  ⟨Or.inl (by decide),
    (updateDwenFuseBit_safety ⟨1, fun _ => 0, fun _ => 0, 255⟩ 2 ⟨.low, 64⟩ ⟨.low, 32⟩
      true).1 (Or.inl (by decide)),
    by decide, by decide,
    (updateDwenFuseBit_safety ⟨2, fun _ => 64, fun _ => 64, 255⟩ 2 ⟨.low, 64⟩ ⟨.low, 32⟩
      true).2 .low 0 (by decide) (by decide)⟩

/--
C8: while the programming-mode flag is set, RAM writes are rejected by the
service gate and RAM reads are rejected by the debug interface; a FLASH write
requested while the flag is clear is rejected by the target facade and never
reaches the debug interface.
-/
theorem programmingModeMemoryGates :
    ∀ (programmingModeEnabled : Bool) (memoryType : TargetMemoryType),
      (programmingModeEnabled = true → memoryType = .RAM →
        writeMemoryPipelineForwards programmingModeEnabled memoryType = false
          ∧ edbgReadMemoryAccepts programmingModeEnabled memoryType = false)
      ∧ (programmingModeEnabled = false → memoryType = .FLASH →
          writeMemoryPipelineForwards programmingModeEnabled memoryType = false) := by
  intro programmingModeEnabled memoryType
  constructor
  · rintro rfl rfl
    decide
  · rintro rfl rfl
    decide

/-- Witness for C8: a RAM write and read in programming mode, and a FLASH
write outside programming mode, are all rejected. -/
theorem programmingModeMemoryGates_witness :
    (writeMemoryPipelineForwards true .RAM = false
        ∧ edbgReadMemoryAccepts true .RAM = false)
      ∧ writeMemoryPipelineForwards false .FLASH = false :=
  ⟨(programmingModeMemoryGates true .RAM).1 rfl rfl,
    (programmingModeMemoryGates false .FLASH).2 rfl rfl⟩

/--
C9: an RSP `M` (write memory) packet whose resolved memory type is FLASH is
answered with the RSP error response and forwards no write to the target; and
a packet whose hex-data nibble count does not equal twice the stated length
fails at parse time.
-/
theorem writeMemoryPacket_spec :
    (∀ (startAddress : Nat) (buffer : List Nat)
        (descriptorRange : Option MemoryAddressRange),
        (writeMemoryHandle .FLASH startAddress buffer descriptorRange).1 = .errorResponse
          ∧ (writeMemoryHandle .FLASH startAddress buffer descriptorRange).2 = [])
      ∧ (∀ (statedLength : Nat) (dataNibbles : List Nat),
          dataNibbles.length ≠ 2 * statedLength →
          parseWriteMemoryData statedLength dataNibbles = none) := by
  constructor
  · intro startAddress buffer descriptorRange
    cases descriptorRange with
    | none => exact ⟨rfl, rfl⟩
    | some range => exact ⟨rfl, rfl⟩
  · intro statedLength dataNibbles hne
    cases hh : hexToData dataNibbles with
    | none => simp [parseWriteMemoryData, hh]
    | some buffer =>
      have hlen := hexToData_length dataNibbles buffer hh
      have hbuf : buffer.length ≠ statedLength := by omega
      simp [parseWriteMemoryData, hh, hbuf]

/-- Witness for C9: three data nibbles against a stated length of 2 fail to
parse, and a FLASH `M` packet gets an error with no forwarded write. -/
theorem writeMemoryPacket_spec_witness :
    ([15, 15, 15] : List Nat).length ≠ 2 * 2
      ∧ parseWriteMemoryData 2 [15, 15, 15] = none
      ∧ (writeMemoryHandle .FLASH 0 [171] (some ⟨0, 100⟩)).1 = .errorResponse
      ∧ (writeMemoryHandle .FLASH 0 [171] (some ⟨0, 100⟩)).2 = [] :=
  ⟨by decide,
    writeMemoryPacket_spec.2 2 [15, 15, 15] (by decide),
    (writeMemoryPacket_spec.1 0 [171] (some ⟨0, 100⟩)).1,
    (writeMemoryPacket_spec.1 0 [171] (some ⟨0, 100⟩)).2⟩

end Bloom
